import Mathlib

/-!
Verification development for the nano-banana-pro history store and
generation controller.

The shallow embedding below translates the two core subsystems of the
application into Lean:

* `StorageService` (src/constants.tsx, third segment): an IndexedDB-backed
  history store (`saveHistoryItem` / `enforceHistoryLimit` /
  `deleteHistoryItem` / `getAllHistory` / `clearAllHistory`).  The store is
  modelled as a list of records in insertion order; IndexedDB request
  failures are modelled by oracles in `StorageEnv`, each carrying the error
  message a rejected request would surface.
* `handleGenerate` (src/unnamed/part_000): the generation session
  controller.  React state is modelled as an explicit `AppState`;
  the asynchronous collaborators (`GeminiService.generateImage`,
  `GeminiService.generateVideo`, `window.aistudio.openSelectKey`,
  `Date.now()`) are modelled by the `GenEnv` environment.
-/

/-- Image generation configuration (src/types.ts `GenerationConfig`).
The union string types of the source are modelled as plain strings. -/
structure GenerationConfig where
  aspectRatio : String
  imageSize : String
  prompt : String
  negativePrompt : String
deriving DecidableEq

/-- Video generation configuration (src/types.ts `VideoGenerationConfig`). -/
structure VideoGenerationConfig where
  aspectRatio : String
  resolution : String
  generationSpeed : String
  prompt : String
  negativePrompt : String
deriving DecidableEq

/-- A persisted image generation record (src/types.ts `HistoryItem`).
Timestamps (`Date.now()` milliseconds) are modelled as naturals. -/
structure HistoryItem where
  id : String
  imageUrl : String
  prompt : String
  config : GenerationConfig
  timestamp : Nat
deriving DecidableEq

/-- A persisted video generation record (src/types.ts `VideoHistoryItem`). -/
structure VideoHistoryItem where
  id : String
  videoUrl : String
  prompt : String
  config : VideoGenerationConfig
  timestamp : Nat
deriving DecidableEq

/-- The image history object store, in insertion order (the IndexedDB
object store named `history`, keyPath `id`). -/
abbrev ImageStore := List HistoryItem

/-- The video history object store. -/
abbrev VideoStore := List VideoHistoryItem

/-- MAX_HISTORY_ITEMS = 100 (src/constants.tsx line 73). -/
def MAX_HISTORY_ITEMS : Nat := 100

/-- Failure oracles for the IndexedDB requests issued by `StorageService`.
`none` means the request succeeds; `some m` means the request's `onerror`
fires and the surfaced error has message `m`. -/
structure StorageEnv where
  putFails : HistoryItem → Option String
  getAllFails : Option String
  delFails : String → Option String
deriving Inhabited

/-- IndexedDB `store.delete(id)`: removes the record with the given key if
present; deleting a missing key is a no-op. -/
def removeId (id : String) (s : ImageStore) : ImageStore :=
  s.filter (fun e => !(e.id == id))

/-- IndexedDB `store.put(item)` with keyPath `id`: upsert by key.  If a
record with the same id exists it is overwritten in place, otherwise the
record is added. -/
def putItem (it : HistoryItem) (s : ImageStore) : ImageStore :=
  if s.any (fun e => e.id == it.id) then
    s.map (fun e => if e.id == it.id then it else e)
  else
    s ++ [it]

/-- `allItems.sort((a, b) => b.timestamp - a.timestamp)` — stable sort by
timestamp descending (src/constants.tsx line 137). -/
def sortByTimestamp (s : ImageStore) : ImageStore :=
  s.insertionSort (fun a b => b.timestamp ≤ a.timestamp)

/-- The eviction loop of `enforceHistoryLimit` (src/constants.tsx lines
143-145): deletes each victim via `deleteHistoryItem`; a rejected delete
propagates immediately (there is no try/catch in the loop). -/
def runDeletes (env : StorageEnv) : List HistoryItem → ImageStore → ImageStore × Option String
  | [], s => (s, none)
  | v :: vs, s =>
    match env.delFails v.id with
    | some m => (s, some m)
    | none => runDeletes env vs (removeId v.id s)

/-- `StorageService.enforceHistoryLimit` (src/constants.tsx lines 131-148):
reads all items, returns if at most MAX_HISTORY_ITEMS, otherwise sorts by
timestamp descending and deletes everything after the first
MAX_HISTORY_ITEMS entries. -/
def enforceHistoryLimit (env : StorageEnv) (s : ImageStore) : ImageStore × Option String :=
  match env.getAllFails with
  | some m => (s, some m)
  | none =>
    if s.length ≤ MAX_HISTORY_ITEMS then (s, none)
    else runDeletes env ((sortByTimestamp s).drop MAX_HISTORY_ITEMS) s

/-- `StorageService.saveHistoryItem` (src/constants.tsx lines 114-129):
puts the new item, then enforces the history limit.  The second component
is `none` when the returned promise resolves normally, and `some m` when
it rejects with message `m`. -/
def saveHistoryItem (env : StorageEnv) (it : HistoryItem) (s : ImageStore) : ImageStore × Option String :=
  match env.putFails it with
  | some m => (s, some m)
  | none => enforceHistoryLimit env (putItem it s)

/-- `StorageService.deleteHistoryItem` (src/constants.tsx lines 150-160). -/
def deleteHistoryItem (env : StorageEnv) (id : String) (s : ImageStore) : ImageStore × Option String :=
  match env.delFails id with
  | some m => (s, some m)
  | none => (removeId id s, none)

/-- Modelled from the spec: the video-mode storage functions
(`StorageService.saveVideoHistoryItem` and friends) are called by the app
code (src/unnamed/part_000 line 189) but their implementation is absent
from src; per spec §2 the two store instances "follow an identical
protocol", so they are mirrored from the image-mode `StorageService`. -/
structure VideoStorageEnv where
  putFails : VideoHistoryItem → Option String
  getAllFails : Option String
  delFails : String → Option String
deriving Inhabited

/-- Modelled from the spec: video-mode `store.delete(id)` (see
`VideoStorageEnv`). -/
def removeVideoId (id : String) (s : VideoStore) : VideoStore :=
  s.filter (fun e => !(e.id == id))

/-- Modelled from the spec: video-mode `store.put(item)` upsert (see
`VideoStorageEnv`). -/
def putVideoItem (it : VideoHistoryItem) (s : VideoStore) : VideoStore :=
  if s.any (fun e => e.id == it.id) then
    s.map (fun e => if e.id == it.id then it else e)
  else
    s ++ [it]

/-- Modelled from the spec: video-mode stable sort by timestamp
descending (see `VideoStorageEnv`). -/
def sortVideoByTimestamp (s : VideoStore) : VideoStore :=
  s.insertionSort (fun a b => b.timestamp ≤ a.timestamp)

/-- Modelled from the spec: video-mode eviction loop (see
`VideoStorageEnv`). -/
def runVideoDeletes (env : VideoStorageEnv) : List VideoHistoryItem → VideoStore → VideoStore × Option String
  | [], s => (s, none)
  | v :: vs, s =>
    match env.delFails v.id with
    | some m => (s, some m)
    | none => runVideoDeletes env vs (removeVideoId v.id s)

/-- Modelled from the spec: video-mode capacity enforcement (see
`VideoStorageEnv`). -/
def enforceVideoHistoryLimit (env : VideoStorageEnv) (s : VideoStore) : VideoStore × Option String :=
  match env.getAllFails with
  | some m => (s, some m)
  | none =>
    if s.length ≤ MAX_HISTORY_ITEMS then (s, none)
    else runVideoDeletes env ((sortVideoByTimestamp s).drop MAX_HISTORY_ITEMS) s

/-- Modelled from the spec: `StorageService.saveVideoHistoryItem` (see
`VideoStorageEnv`). -/
def saveVideoHistoryItem (env : VideoStorageEnv) (it : VideoHistoryItem) (s : VideoStore) : VideoStore × Option String :=
  match env.putFails it with
  | some m => (s, some m)
  | none => enforceVideoHistoryLimit env (putVideoItem it s)

/-- Matching helper for `strIncludes`: does `pat` occur at the head of
`hay`? -/
def matchesAt : List Char → List Char → Bool
  | [], _ => true
  | _ :: _, [] => false
  | p :: ps, h :: hs => p == h && matchesAt ps hs

/-- Scanning helper for `strIncludes`. -/
def hasSubList (pat : List Char) : List Char → Bool
  | [] => matchesAt pat []
  | h :: hs => matchesAt pat (h :: hs) || hasSubList pat hs

/-- JavaScript `s.includes(pat)`: substring containment. -/
def strIncludes (s pat : String) : Bool :=
  hasSubList pat.toList s.toList

/-- The prompt guard `!config.prompt.trim()` (src/unnamed/part_000 lines
119 and 162): truthy exactly when the prompt is empty or consists of
whitespace only. -/
def promptBlank (s : String) : Bool :=
  s.toList.all Char.isWhitespace

/-- `err.message?.includes("Requested entity was not found")`
(src/unnamed/part_000 line 144); `none` models an absent message, on
which the optional chaining yields a falsy result. -/
def isNotFoundMsg : Option String → Bool
  | some s => strIncludes s "Requested entity was not found"
  | none => false

/-- `err.message?.includes("429") || err.message?.includes("RESOURCE_EXHAUSTED") || err.message?.includes("quota")`
(src/unnamed/part_000 lines 151 and 193). -/
def isRateLimitMsg : Option String → Bool
  | some s => strIncludes s "429" || strIncludes s "RESOURCE_EXHAUSTED" || strIncludes s "quota"
  | none => false

/-- JavaScript `msg || d`: an absent or empty message falls back to the
default string (src/unnamed/part_000 lines 154 and 196). -/
def messageOrDefault (msg : Option String) (d : String) : String :=
  match msg with
  | some s => if s.isEmpty then d else s
  | none => d

/-- Error text set by the image AuthExpired branch
(src/unnamed/part_000 line 146). -/
def authExpiredMsg : String :=
  "Your API key session has expired. Please re-select your project."

/-- Fallback error text of the image generic branch
(src/unnamed/part_000 line 154). -/
def imageGenericMsg : String :=
  "An unexpected error occurred during generation."

/-- Fallback error text of the video generic branch
(src/unnamed/part_000 line 196). -/
def videoGenericMsg : String :=
  "An unexpected error occurred during video generation."

/-- Generation mode (src/types.ts `GenerationMode`). -/
inductive GenerationMode where
  | image
  | video
deriving DecidableEq

/-- The React component state of src/unnamed/part_000 that the
controller reads and writes, together with the durable stores backing
`StorageService`.  Fields not touched by `handleGenerate` (reference
images, frames, UI toggles) are omitted. -/
structure AppState where
  isAuth : Bool
  loading : Bool
  error : Option String
  isRateLimited : Bool
  mode : GenerationMode
  config : GenerationConfig
  videoConfig : VideoGenerationConfig
  resultImage : Option String
  resultVideo : Option String
  history : List HistoryItem
  videoHistory : List VideoHistoryItem
  store : ImageStore
  videoStore : VideoStore
deriving DecidableEq

/-- Environment of one `handleGenerate` run: the mode flag read from
`process.env.API_KEY`, the outcomes of the asynchronous collaborators —
including whether `window.aistudio?.openSelectKey()` rejects when
awaited — and the two `Date.now()` readings taken when a success is
recorded (src/unnamed/part_000 lines 133 and 137). A remote failure
carries `err.message`, which may be absent. -/
structure GenEnv where
  isLocalMode : Bool
  authDialogFails : Bool
  remoteImage : Except (Option String) String
  remoteVideo : Except (Option String) String
  t1 : Nat
  t2 : Nat
  senv : StorageEnv
  vsenv : VideoStorageEnv

/-- Observable effects of one `handleGenerate` run: whether a remote
generation call was dispatched, whether `window.aistudio.openSelectKey()`
was invoked from the error classifier, and whether the promise returned
by `handleGenerate` itself rejected (which happens when the awaited
`openSelectKey` rejects inside the catch block — there is no try/catch
around it, so the rejection propagates past the `finally`). -/
structure GenOutcome where
  dispatched : Bool
  authRequested : Bool
  rejected : Bool
deriving DecidableEq

/-- The catch block of the image branch (src/unnamed/part_000 lines
143-155): AuthExpired is checked first, then rate limiting, then the
generic fallback.  In the AuthExpired branch outside local mode the
code awaits `window.aistudio?.openSelectKey()` with no try/catch: if
the dialog resolves, `setIsAuth(true)` runs; if it rejects, `setIsAuth`
is skipped (the gate stays unauthorized) and the rejection propagates
out of the handler.  Returns the updated state, whether `openSelectKey`
was invoked, and whether the block threw. -/
def classifyImageError (isLocalMode authDialogFails : Bool) (msg : Option String) (st : AppState) : AppState × Bool × Bool :=
  if isNotFoundMsg msg then
    let st1 := { st with isAuth := false, error := some authExpiredMsg }
    if isLocalMode then (st1, false, false)
    else if authDialogFails then (st1, true, true)
    else ({ st1 with isAuth := true }, true, false)
  else if isRateLimitMsg msg then
    ({ st with isRateLimited := true }, false, false)
  else
    ({ st with error := some (messageOrDefault msg imageGenericMsg) }, false, false)

/-- The catch block of the video branch (src/unnamed/part_000 lines
192-197): only rate limiting and the generic fallback are checked. -/
def classifyVideoError (msg : Option String) (st : AppState) : AppState × Bool :=
  if isRateLimitMsg msg then
    ({ st with isRateLimited := true }, false)
  else
    ({ st with error := some (messageOrDefault msg videoGenericMsg) }, false)

/-- State at the suspension point of the image branch: `setLoading(true)`
and `setError(null)` have run and the remote call is in flight
(src/unnamed/part_000 lines 121-122). -/
def startImage (st : AppState) : AppState :=
  { st with loading := true, error := none }

/-- State at the suspension point of the video branch: additionally
`setResultVideo(null)` has run (src/unnamed/part_000 lines 164-166). -/
def startVideo (st : AppState) : AppState :=
  { st with loading := true, error := none, resultVideo := none }

/-- The history record built on image success (src/unnamed/part_000
lines 132-138): both the id and the timestamp come from `Date.now()`. -/
def newImageItem (t1 t2 : Nat) (url : String) (cfg : GenerationConfig) : HistoryItem :=
  { id := toString t1, imageUrl := url, prompt := cfg.prompt, config := cfg, timestamp := t2 }

/-- The video record built on video success (src/unnamed/part_000
lines 181-187). -/
def newVideoItem (t1 t2 : Nat) (url : String) (cfg : VideoGenerationConfig) : VideoHistoryItem :=
  { id := toString t1, videoUrl := url, prompt := cfg.prompt, config := cfg, timestamp := t2 }

/-- The image branch of `handleGenerate` (src/unnamed/part_000 lines
118-159): prompt guard, dispatch, success commit (result, store write,
history prepend) or failure classification, and the `finally` that
clears the loading flag. -/
def handleGenerateImage (env : GenEnv) (st : AppState) : AppState × GenOutcome :=
  if promptBlank st.config.prompt then (st, ⟨false, false, false⟩)
  else
    let st1 := startImage st
    match env.remoteImage with
    | .ok url =>
      let st2 := { st1 with resultImage := some url }
      let item := newImageItem env.t1 env.t2 url st.config
      let saved := saveHistoryItem env.senv item st2.store
      match saved.2 with
      | none =>
        ({ st2 with store := saved.1, history := item :: st2.history, loading := false }, ⟨true, false, false⟩)
      | some m =>
        let c := classifyImageError env.isLocalMode env.authDialogFails (some m) { st2 with store := saved.1 }
        ({ c.1 with loading := false }, ⟨true, c.2.1, c.2.2⟩)
    | .error msg =>
      let c := classifyImageError env.isLocalMode env.authDialogFails msg st1
      ({ c.1 with loading := false }, ⟨true, c.2.1, c.2.2⟩)

/-- The video branch of `handleGenerate` (src/unnamed/part_000 lines
160-202). -/
def handleGenerateVideo (env : GenEnv) (st : AppState) : AppState × GenOutcome :=
  if promptBlank st.videoConfig.prompt then (st, ⟨false, false, false⟩)
  else
    let st1 := startVideo st
    match env.remoteVideo with
    | .ok url =>
      let st2 := { st1 with resultVideo := some url }
      let item := newVideoItem env.t1 env.t2 url st.videoConfig
      let saved := saveVideoHistoryItem env.vsenv item st2.videoStore
      match saved.2 with
      | none =>
        ({ st2 with videoStore := saved.1, videoHistory := item :: st2.videoHistory, loading := false }, ⟨true, false, false⟩)
      | some m =>
        let c := classifyVideoError (some m) { st2 with videoStore := saved.1 }
        ({ c.1 with loading := false }, ⟨true, c.2, false⟩)
    | .error msg =>
      let c := classifyVideoError msg st1
      ({ c.1 with loading := false }, ⟨true, c.2, false⟩)

/-- `handleGenerate` (src/unnamed/part_000 lines 117-203). -/
def handleGenerate (env : GenEnv) (st : AppState) : AppState × GenOutcome :=
  match st.mode with
  | .image => handleGenerateImage env st
  | .video => handleGenerateVideo env st

/-- The disabled condition of the GENERATE button
(src/unnamed/part_000 line 947): disabled while loading or while the
current mode's prompt is blank. -/
def generateDisabled (st : AppState) : Bool :=
  st.loading ||
    (match st.mode with
     | .image => promptBlank st.config.prompt
     | .video => promptBlank st.videoConfig.prompt)

/-- A user submit: pressing the GENERATE button.  A disabled button does
not fire its onClick handler, so a press while the button is disabled
leaves the state untouched and dispatches nothing. -/
def submit (env : GenEnv) (st : AppState) : AppState × GenOutcome :=
  if generateDisabled st then (st, ⟨false, false, false⟩)
  else handleGenerate env st

/-! Concrete fixtures used by witnesses and counterexamples. -/

/-- A concrete image configuration. -/
def defConfig : GenerationConfig :=
  ⟨"1:1", "1K", "a banana", ""⟩

/-- A concrete video configuration. -/
def defVideoConfig : VideoGenerationConfig :=
  ⟨"16:9", "1080p", "fast", "a banana", ""⟩

/-- A storage environment in which every IndexedDB request succeeds. -/
def okStorageEnv : StorageEnv :=
  ⟨fun _ => none, none, fun _ => none⟩

/-- A video storage environment in which every request succeeds. -/
def okVideoStorageEnv : VideoStorageEnv :=
  ⟨fun _ => none, none, fun _ => none⟩

/-- A concrete idle authorized state with empty stores. -/
def baseState : AppState :=
  ⟨true, false, none, false, .image, defConfig, defVideoConfig, none, none, [], [], [], []⟩

/-- A concrete environment: AI-Studio mode, the key-selection dialog
resolves, both remote calls succeed, both clock readings are 7. -/
def baseEnv : GenEnv :=
  ⟨false, false, .ok "url-img", .ok "url-vid", 7, 7, okStorageEnv, okVideoStorageEnv⟩

/-! ### C8 — blank prompt is a no-op -/

/-- C8: for every state whose current mode's prompt is empty or
whitespace-only, `handleGenerate` returns without transitioning state,
without dispatching a remote call, and without touching the stores: the
result is exactly the input state. -/
theorem blank_prompt_submit_noop (env : GenEnv) (st : AppState)
    (h : promptBlank (match st.mode with
                      | .image => st.config.prompt
                      | .video => st.videoConfig.prompt) = true) :
    handleGenerate env st = (st, ⟨false, false, false⟩) := by
  unfold handleGenerate
  cases hm : st.mode with
  | image =>
    rw [hm] at h
    unfold handleGenerateImage
    rw [h]
    simp
  | video =>
    rw [hm] at h
    unfold handleGenerateVideo
    rw [h]
    simp

/-- C8 witness: a concrete whitespace-only prompt in image mode. -/
theorem blank_prompt_submit_noop_witness :
    handleGenerate baseEnv { baseState with config := { defConfig with prompt := "  " } }
      = ({ baseState with config := { defConfig with prompt := "  " } }, ⟨false, false, false⟩) :=
  blank_prompt_submit_noop baseEnv
    { baseState with config := { defConfig with prompt := "  " } } (by decide)

/-! ### C4 — no double dispatch while a request is in flight -/

/-- C4: a submit issued while a request is in flight (the loading flag
set, as it is from the dispatch point `startImage`/`startVideo` until
resolution) is rejected: the state is unchanged and no remote dispatch
occurs, so a pair of submits of which the second lands mid-flight
dispatches exactly once. -/
theorem submit_while_inflight_rejected (env : GenEnv) (st : AppState)
    (h : st.loading = true) :
    submit env st = (st, ⟨false, false, false⟩) ∧
    (∀ st0 : AppState, (startImage st0).loading = true ∧ (startVideo st0).loading = true) := by
  constructor
  · unfold submit generateDisabled
    rw [h]
    simp
  · intro st0
    exact ⟨rfl, rfl⟩

/-- C4 witness: a concrete mid-flight state. -/
theorem submit_while_inflight_rejected_witness :
    submit baseEnv { baseState with loading := true }
        = ({ baseState with loading := true }, ⟨false, false, false⟩) ∧
    (∀ st0 : AppState, (startImage st0).loading = true ∧ (startVideo st0).loading = true) :=
  submit_while_inflight_rejected baseEnv { baseState with loading := true } rfl

/-! ### C5 — "Requested entity was not found" classification -/

/-- Video-mode environment whose remote call fails with the not-found
message. -/
def notFoundVideoEnv : GenEnv :=
  { baseEnv with remoteVideo := .error (some "Requested entity was not found") }

/-- LOCAL-mode image environment whose remote call fails with the
not-found message. -/
def notFoundLocalEnv : GenEnv :=
  { baseEnv with
    isLocalMode := true
    remoteImage := .error (some "Requested entity was not found") }

/-- AI-Studio-mode image environment whose remote call fails with the
not-found message and whose key-selection dialog resolves. -/
def notFoundImageEnv : GenEnv :=
  { baseEnv with remoteImage := .error (some "Requested entity was not found") }

/-- C5 counterexample, two concrete refutations of the claim as stated.
In video mode a remote failure whose message contains "Requested entity
was not found" is NOT classified as AuthExpired — the video catch block
has no such branch — so the gate stays authorized, no re-authorization
is requested, and the message is surfaced as a generic error.  And in
image mode under local mode the failure IS classified AuthExpired but
`requestAuthorization()` is never triggered (the `openSelectKey` call is
guarded by `!isLocalMode`). -/
theorem video_notfound_not_authexpired :
    (handleGenerate notFoundVideoEnv { baseState with mode := .video }).2.authRequested = false ∧
    (handleGenerate notFoundVideoEnv { baseState with mode := .video }).1.isAuth = true ∧
    (handleGenerate notFoundVideoEnv { baseState with mode := .video }).1.error
      = some "Requested entity was not found" ∧
    (handleGenerate notFoundLocalEnv baseState).2.authRequested = false ∧
    (handleGenerate notFoundLocalEnv baseState).1.error = some authExpiredMsg := by
  decide

/-- C5 amended: in IMAGE mode only, a remote failure whose message
contains "Requested entity was not found" is classified AuthExpired
before any other category: the auth-expired error text is set and the
gate is marked unauthorized; the rate-limit flag is untouched even if
the message also matches a rate-limit substring, and loading clears.
`requestAuthorization()` (`openSelectKey`) is triggered exactly when
not running in local mode; then, if the dialog resolves, the gate is
marked authorized again (while the request stays failed), and if the
dialog rejects, the gate stays unauthorized and the handler's own
promise rejects.  In video mode no such classification exists. -/
theorem image_notfound_classified_authexpired (env : GenEnv) (st : AppState) (m : String)
    (hmode : st.mode = .image)
    (hprompt : promptBlank st.config.prompt = false)
    (hremote : env.remoteImage = .error (some m))
    (hm : strIncludes m "Requested entity was not found" = true) :
    (handleGenerate env st).1.error = some authExpiredMsg ∧
    (handleGenerate env st).2.authRequested = !env.isLocalMode ∧
    (handleGenerate env st).1.isAuth = (!env.isLocalMode && !env.authDialogFails) ∧
    (handleGenerate env st).2.rejected = (!env.isLocalMode && env.authDialogFails) ∧
    (handleGenerate env st).1.isRateLimited = st.isRateLimited ∧
    (handleGenerate env st).1.loading = false ∧
    (handleGenerate env st).2.dispatched = true := by
  have h1 : isNotFoundMsg (some m) = true := by
    unfold isNotFoundMsg
    exact hm
  have key : handleGenerate env st =
      (if env.isLocalMode then
        ({ startImage st with isAuth := false, error := some authExpiredMsg, loading := false },
          ⟨true, false, false⟩)
      else if env.authDialogFails then
        ({ startImage st with isAuth := false, error := some authExpiredMsg, loading := false },
          ⟨true, true, true⟩)
      else
        ({ startImage st with isAuth := true, error := some authExpiredMsg, loading := false },
          ⟨true, true, false⟩)) := by
    simp only [handleGenerate, hmode, handleGenerateImage, hprompt, hremote,
      classifyImageError, h1, Bool.false_eq_true, if_false, if_true]
    cases env.isLocalMode <;> cases env.authDialogFails <;> simp
  rw [key]
  cases env.isLocalMode <;> cases env.authDialogFails <;> simp [startImage]

/-- C5 witness: a concrete image-mode not-found failure in AI-Studio
mode with a resolving dialog: the error text is set, re-authorization
is requested, the gate ends authorized, and nothing rejects. -/
theorem image_notfound_classified_authexpired_witness :
    (handleGenerate notFoundImageEnv baseState).1.error = some authExpiredMsg ∧
    (handleGenerate notFoundImageEnv baseState).2.authRequested
      = !notFoundImageEnv.isLocalMode ∧
    (handleGenerate notFoundImageEnv baseState).1.isAuth
      = (!notFoundImageEnv.isLocalMode && !notFoundImageEnv.authDialogFails) ∧
    (handleGenerate notFoundImageEnv baseState).2.rejected
      = (!notFoundImageEnv.isLocalMode && notFoundImageEnv.authDialogFails) ∧
    (handleGenerate notFoundImageEnv baseState).1.isRateLimited = baseState.isRateLimited ∧
    (handleGenerate notFoundImageEnv baseState).1.loading = false ∧
    (handleGenerate notFoundImageEnv baseState).2.dispatched = true :=
  image_notfound_classified_authexpired notFoundImageEnv
    baseState "Requested entity was not found" rfl (by decide) rfl (by decide)

/-! ### C6 — rate-limit classification -/

/-- C6 counterexample: a remote failure (image mode) whose message
contains "429" but also contains "Requested entity was not found" is
classified AuthExpired — a Failed state with the auth-expired error text
— and the rate-limited flag stays false, because the AuthExpired check
runs first. -/
theorem ratelimit_substring_can_yield_failed :
    (handleGenerate { baseEnv with remoteImage := .error (some "Requested entity was not found 429") }
        baseState).1.isRateLimited = false ∧
    (handleGenerate { baseEnv with remoteImage := .error (some "Requested entity was not found 429") }
        baseState).1.error = some authExpiredMsg := by
  decide

/-- C6 amended: a remote failure whose message contains "429",
"RESOURCE_EXHAUSTED" or "quota" yields the rate-limited state and no
error (no Failed state) — unconditionally in video mode, and in image
mode provided the message does not also contain
"Requested entity was not found" (that check runs first). -/
theorem ratelimit_substring_classified_ratelimited (env : GenEnv) (st : AppState) (m : String) :
    (st.mode = .image → promptBlank st.config.prompt = false →
      env.remoteImage = .error (some m) →
      isRateLimitMsg (some m) = true → isNotFoundMsg (some m) = false →
      (handleGenerate env st).1.isRateLimited = true ∧
        (handleGenerate env st).1.error = none) ∧
    (st.mode = .video → promptBlank st.videoConfig.prompt = false →
      env.remoteVideo = .error (some m) →
      isRateLimitMsg (some m) = true →
      (handleGenerate env st).1.isRateLimited = true ∧
        (handleGenerate env st).1.error = none) := by
  constructor
  · intro hmode hprompt hremote hrate hnf
    have key : handleGenerate env st =
        ({ startImage st with isRateLimited := true, loading := false }, ⟨true, false, false⟩) := by
      simp only [handleGenerate, hmode, handleGenerateImage, hprompt, hremote,
        classifyImageError, hrate, hnf, Bool.false_eq_true, if_false, if_true]
    rw [key]
    exact ⟨rfl, rfl⟩
  · intro hmode hprompt hremote hrate
    have key : handleGenerate env st =
        ({ startVideo st with isRateLimited := true, loading := false }, ⟨true, false, false⟩) := by
      simp only [handleGenerate, hmode, handleGenerateVideo, hprompt, hremote,
        classifyVideoError, hrate, Bool.false_eq_true, if_false, if_true]
    rw [key]
    exact ⟨rfl, rfl⟩

/-- C6 witness: a concrete quota-exhausted failure in image mode yields
the rate-limited state and no error. -/
theorem ratelimit_substring_classified_ratelimited_witness :
    (handleGenerate { baseEnv with remoteImage := .error (some "RESOURCE_EXHAUSTED: quota") }
        baseState).1.isRateLimited = true ∧
    (handleGenerate { baseEnv with remoteImage := .error (some "RESOURCE_EXHAUSTED: quota") }
        baseState).1.error = none :=
  (ratelimit_substring_classified_ratelimited
      { baseEnv with remoteImage := .error (some "RESOURCE_EXHAUSTED: quota") }
      baseState "RESOURCE_EXHAUSTED: quota").1
    rfl (by decide) rfl (by decide) (by decide)

/-! ### Helper lemmas about the store -/

/-- `classifyImageError` never touches the history list. -/
lemma classifyImageError_history (ilm adf : Bool) (msg : Option String) (st : AppState) :
    (classifyImageError ilm adf msg st).1.history = st.history := by
  unfold classifyImageError
  split
  · split
    · rfl
    · split <;> rfl
  · split <;> rfl

/-- The upserted item is a member of the store after `putItem`. -/
lemma mem_putItem (it : HistoryItem) (s : ImageStore) : it ∈ putItem it s := by
  unfold putItem
  split
  · rename_i h
    rw [List.any_eq_true] at h
    obtain ⟨e, he, heq⟩ := h
    refine List.mem_map.2 ⟨e, he, ?_⟩
    simp [heq]
  · simp

/-- `putItem` grows the store by at most one entry. -/
lemma length_putItem_le (it : HistoryItem) (s : ImageStore) :
    (putItem it s).length ≤ s.length + 1 := by
  unfold putItem
  split
  · rw [List.length_map]
    omega
  · rw [List.length_append]
    simp

/-- When the put succeeds, the scan succeeds, and the store does not
exceed capacity, `saveHistoryItem` is just the upsert. -/
lemma saveHistoryItem_no_evict (env : StorageEnv) (it : HistoryItem) (s : ImageStore)
    (hput : env.putFails it = none) (hget : env.getAllFails = none)
    (hlen : (putItem it s).length ≤ MAX_HISTORY_ITEMS) :
    saveHistoryItem env it s = (putItem it s, none) := by
  unfold saveHistoryItem enforceHistoryLimit
  rw [hput, hget]
  simp [hlen]

/-! ### C10 — storage failure after a successful generation -/

/-- C10: when the remote image generation succeeds but the store write
rejects with message `m`, the in-memory history list is unchanged and
the final state is exactly the one produced by feeding `m` through the
same substring classifier used for remote errors
(`classifyImageError`), with loading cleared. -/
theorem storage_failure_classified_like_remote (env : GenEnv) (st : AppState)
    (url m : String) (S : ImageStore)
    (hmode : st.mode = .image)
    (hprompt : promptBlank st.config.prompt = false)
    (hremote : env.remoteImage = .ok url)
    (hsave : saveHistoryItem env.senv (newImageItem env.t1 env.t2 url st.config) st.store
      = (S, some m)) :
    (handleGenerate env st).1.history = st.history ∧
    handleGenerate env st =
      ({ (classifyImageError env.isLocalMode env.authDialogFails (some m)
            { startImage st with resultImage := some url, store := S }).1 with loading := false },
        ⟨true,
          (classifyImageError env.isLocalMode env.authDialogFails (some m)
            { startImage st with resultImage := some url, store := S }).2.1,
          (classifyImageError env.isLocalMode env.authDialogFails (some m)
            { startImage st with resultImage := some url, store := S }).2.2⟩) := by
  have key : handleGenerate env st =
      ({ (classifyImageError env.isLocalMode env.authDialogFails (some m)
            { startImage st with resultImage := some url, store := S }).1 with loading := false },
        ⟨true,
          (classifyImageError env.isLocalMode env.authDialogFails (some m)
            { startImage st with resultImage := some url, store := S }).2.1,
          (classifyImageError env.isLocalMode env.authDialogFails (some m)
            { startImage st with resultImage := some url, store := S }).2.2⟩) := by
    simp only [handleGenerate, hmode, handleGenerateImage, hprompt, hremote,
      Bool.false_eq_true, if_false]
    rw [show (startImage st).store = st.store from rfl, hsave]
  refine ⟨?_, key⟩
  rw [key]
  exact classifyImageError_history env.isLocalMode env.authDialogFails (some m)
    { startImage st with resultImage := some url, store := S }

/-- Environment for the C10 witness: the IndexedDB put itself rejects
with a quota message. -/
def putRejectsEnv : GenEnv :=
  { baseEnv with senv := ⟨fun _ => some "quota reached", none, fun _ => none⟩ }

/-- C10 witness: a concrete run in which the store write fails with a
quota message after a successful generation. -/
theorem storage_failure_classified_like_remote_witness :
    (handleGenerate putRejectsEnv baseState).1.history = baseState.history ∧
    handleGenerate putRejectsEnv baseState =
      ({ (classifyImageError putRejectsEnv.isLocalMode putRejectsEnv.authDialogFails
            (some "quota reached")
            { startImage baseState with resultImage := some "url-img", store := [] }).1 with
          loading := false },
        ⟨true,
          (classifyImageError putRejectsEnv.isLocalMode putRejectsEnv.authDialogFails
            (some "quota reached")
            { startImage baseState with resultImage := some "url-img", store := [] }).2.1,
          (classifyImageError putRejectsEnv.isLocalMode putRejectsEnv.authDialogFails
            (some "quota reached")
            { startImage baseState with resultImage := some "url-img", store := [] }).2.2⟩) :=
  storage_failure_classified_like_remote putRejectsEnv baseState "url-img" "quota reached" []
    rfl (by decide) rfl (by decide)

/-! ### C2 — success commits a retrievable, uniquely-identified record -/

/-- First generation of the C2 counterexample: clock reading 7. -/
def firstGenEnv : GenEnv :=
  { baseEnv with remoteImage := .ok "u1" }

/-- Second generation of the C2 counterexample: same clock reading 7
(two successes within the same `Date.now()` millisecond). -/
def secondGenEnv : GenEnv :=
  { baseEnv with remoteImage := .ok "u2" }

/-- State after the first successful generation. -/
def afterFirstGen : AppState :=
  (handleGenerate firstGenEnv baseState).1

/-- State after the second successful generation. -/
def afterSecondGen : AppState :=
  (handleGenerate secondGenEnv afterFirstGen).1

/-- A store at exactly MAX_HISTORY_ITEMS capacity in which every record
carries the same timestamp 7777. -/
def tieStore : ImageStore :=
  (List.range 100).map (fun k => ⟨toString k, "u", "p", defConfig, 7777⟩)

/-- The idle state sitting on the full tied store. -/
def tieState : AppState :=
  { baseState with store := tieStore }

/-- A successful generation into the full tied store whose record
timestamp ties the existing records. -/
def tieGenEnv : GenEnv :=
  { baseEnv with remoteImage := .ok "u3", t1 := 9999, t2 := 7777 }

/-- State after the successful generation into the full tied store. -/
def afterTieGen : AppState :=
  (handleGenerate tieGenEnv tieState).1

set_option maxRecDepth 40000 in
/-- C2 counterexample, two concrete refutations of the claim as stated.
First, two successful generations in the same millisecond produce
records with EQUAL ids (both `Date.now().toString()`), and after the
second success the store no longer contains any record for the first
artifact "u1" — the upsert overwrote it — even though the first
generation had reported success with "u1" retrievable.  Second, at
capacity with a timestamp tie the save's own eviction pass deletes the
just-written record (the stable sort leaves the appended record last
among its ties, `slice(MAX)` selects it): the controller reports
success (no error, result shown, history prepended) yet the store holds
no record for the artifact "u3". -/
theorem same_millisecond_ids_collide :
    afterFirstGen.store.any (fun e => e.imageUrl == "u1") = true ∧
    (newImageItem firstGenEnv.t1 firstGenEnv.t2 "u1" baseState.config).id
      = (newImageItem secondGenEnv.t1 secondGenEnv.t2 "u2" afterFirstGen.config).id ∧
    afterSecondGen.store.all (fun e => !(e.imageUrl == "u1")) = true ∧
    afterTieGen.error = none ∧
    afterTieGen.resultImage = some "u3" ∧
    afterTieGen.history = [newImageItem tieGenEnv.t1 tieGenEnv.t2 "u3" defConfig] ∧
    afterTieGen.store.all (fun e => !(e.imageUrl == "u3")) = true ∧
    afterTieGen.store.length = 100 := by
  decide

/-- C2 amended: immediately after a successful image generation whose
store write succeeds, with the store below capacity — the regime in
which the insert cannot itself fall to the eviction pass exhibited by
the counterexample — the new record, whose id is the `Date.now()`
reading rendered as a string, is in the store (hence retrievable via
`getAll`) and is prepended to the in-memory history; records of two
generations have distinct ids whenever their id clock readings render
to distinct strings (in particular whenever the successes fall in
distinct milliseconds). -/
theorem success_commits_record (env : GenEnv) (st : AppState) (url : String)
    (hmode : st.mode = .image)
    (hprompt : promptBlank st.config.prompt = false)
    (hremote : env.remoteImage = .ok url)
    (hcap : st.store.length < MAX_HISTORY_ITEMS)
    (hput : env.senv.putFails (newImageItem env.t1 env.t2 url st.config) = none)
    (hget : env.senv.getAllFails = none) :
    newImageItem env.t1 env.t2 url st.config ∈ (handleGenerate env st).1.store ∧
    (handleGenerate env st).1.history
      = newImageItem env.t1 env.t2 url st.config :: st.history ∧
    (handleGenerate env st).1.resultImage = some url ∧
    (handleGenerate env st).1.loading = false ∧
    (∀ (ta tb t2a t2b : Nat) (ua ub : String) (ca cb : GenerationConfig),
      toString ta ≠ toString tb →
      (newImageItem ta t2a ua ca).id ≠ (newImageItem tb t2b ub cb).id) := by
  have hlen : (putItem (newImageItem env.t1 env.t2 url st.config) st.store).length
      ≤ MAX_HISTORY_ITEMS := by
    have h := length_putItem_le (newImageItem env.t1 env.t2 url st.config) st.store
    omega
  have hsave := saveHistoryItem_no_evict env.senv (newImageItem env.t1 env.t2 url st.config)
    st.store hput hget hlen
  have key : handleGenerate env st =
      ({ startImage st with
          resultImage := some url,
          store := putItem (newImageItem env.t1 env.t2 url st.config) st.store,
          history := newImageItem env.t1 env.t2 url st.config :: st.history,
          loading := false }, ⟨true, false, false⟩) := by
    simp only [handleGenerate, hmode, handleGenerateImage, hprompt, hremote,
      Bool.false_eq_true, if_false]
    rw [show (startImage st).store = st.store from rfl, hsave]
    rfl
  rw [key]
  refine ⟨mem_putItem _ _, rfl, rfl, rfl, ?_⟩
  intro ta tb t2a t2b ua ub ca cb hne
  exact hne

/-- C2 witness: a concrete successful generation from the empty store
commits the new record. -/
theorem success_commits_record_witness :
    newImageItem baseEnv.t1 baseEnv.t2 "url-img" baseState.config
      ∈ (handleGenerate baseEnv baseState).1.store ∧
    (handleGenerate baseEnv baseState).1.history
      = newImageItem baseEnv.t1 baseEnv.t2 "url-img" baseState.config :: baseState.history ∧
    (handleGenerate baseEnv baseState).1.resultImage = some "url-img" ∧
    (handleGenerate baseEnv baseState).1.loading = false ∧
    (∀ (ta tb t2a t2b : Nat) (ua ub : String) (ca cb : GenerationConfig),
      toString ta ≠ toString tb →
      (newImageItem ta t2a ua ca).id ≠ (newImageItem tb t2b ub cb).id) :=
  success_commits_record baseEnv baseState "url-img" rfl (by decide) rfl (by decide)
    (by decide) (by decide)

/-! ### C1 — the store never exceeds MAX_HISTORY_ITEMS after a save -/

/-- The sort of `enforceHistoryLimit` permutes the scanned items. -/
lemma sortByTimestamp_perm (s : ImageStore) : List.Perm (sortByTimestamp s) s :=
  List.perm_insertionSort _ s

/-- A successful eviction loop removes exactly the entries whose id
matches some victim. -/
lemma runDeletes_snd_none_fst (env : StorageEnv) (vs : List HistoryItem) :
    ∀ (s : ImageStore), (runDeletes env vs s).2 = none →
      (runDeletes env vs s).1
        = s.filter (fun e => vs.all (fun v => !(e.id == v.id))) := by
  induction vs with
  | nil =>
    intro s _
    simp [runDeletes]
  | cons v vs ih =>
    intro s h
    cases hdel : env.delFails v.id with
    | some m =>
      simp [runDeletes, hdel] at h
    | none =>
      have h2 : (runDeletes env vs (removeId v.id s)).2 = none := by
        simpa [runDeletes, hdel] using h
      calc (runDeletes env (v :: vs) s).1
          = (runDeletes env vs (removeId v.id s)).1 := by
            simp [runDeletes, hdel]
        _ = (removeId v.id s).filter (fun e => vs.all (fun w => !(e.id == w.id))) :=
            ih (removeId v.id s) h2
        _ = s.filter (fun e => (v :: vs).all (fun w => !(e.id == w.id))) := by
            rw [removeId, List.filter_filter]
            refine List.filter_congr ?_
            intro x _
            simp [List.all_cons, Bool.and_comm]

/-- Filtering a list by "id matches nothing in my own suffix from
position `n`" keeps at most `n` entries. -/
lemma filter_excluding_suffix_le (l : List HistoryItem) (n : Nat) (t : List HistoryItem)
    (ht : l.drop n = t) :
    (l.filter (fun e => t.all (fun v => !(e.id == v.id)))).length ≤ n := by
  conv_lhs => rw [← List.take_append_drop n l]
  rw [List.filter_append, ht]
  have hnil : t.filter (fun e => t.all (fun v => !(e.id == v.id))) = [] := by
    rw [List.filter_eq_nil_iff]
    intro a ha hall
    rw [List.all_eq_true] at hall
    have hx := hall a ha
    simp at hx
  rw [hnil, List.append_nil]
  calc (List.filter _ (l.take n)).length
      ≤ (l.take n).length := List.length_filter_le _ _
    _ ≤ n := by
        rw [List.length_take]
        exact min_le_left _ _

/-- A normally-returning `enforceHistoryLimit` leaves at most
MAX_HISTORY_ITEMS records. -/
lemma enforce_snd_none_length (env : StorageEnv) (s : ImageStore)
    (h : (enforceHistoryLimit env s).2 = none) :
    (enforceHistoryLimit env s).1.length ≤ MAX_HISTORY_ITEMS := by
  unfold enforceHistoryLimit at h ⊢
  split at h
  next m heq =>
    simp at h
  next heq =>
    split at h
    next hlen =>
      rw [if_pos hlen]
      exact hlen
    next hlen =>
      rw [if_neg hlen]
      rw [runDeletes_snd_none_fst env ((sortByTimestamp s).drop MAX_HISTORY_ITEMS) s h]
      have hperm := List.Perm.filter
        (fun e => ((sortByTimestamp s).drop MAX_HISTORY_ITEMS).all (fun v => !(e.id == v.id)))
        (sortByTimestamp_perm s).symm
      refine le_trans (le_of_eq (List.Perm.length_eq hperm)) ?_
      exact filter_excluding_suffix_le (sortByTimestamp s) MAX_HISTORY_ITEMS _ rfl

/-- C1: whenever `saveHistoryItem` returns normally — from any store
contents whatsoever — the resulting store holds at most
MAX_HISTORY_ITEMS = 100 records. -/
theorem saveHistoryItem_bounded (env : StorageEnv) (it : HistoryItem) (s : ImageStore)
    (h : (saveHistoryItem env it s).2 = none) :
    (saveHistoryItem env it s).1.length ≤ MAX_HISTORY_ITEMS := by
  unfold saveHistoryItem at h ⊢
  split at h
  next m heq =>
    simp at h
  next heq =>
    exact enforce_snd_none_length env (putItem it s) h

/-- C1 witness: a concrete save into the empty store. -/
theorem saveHistoryItem_bounded_witness :
    (saveHistoryItem okStorageEnv (newImageItem 1 1 "u" defConfig) []).1.length
      ≤ MAX_HISTORY_ITEMS :=
  saveHistoryItem_bounded okStorageEnv (newImageItem 1 1 "u" defConfig) [] (by decide)

/-! ### C3 — eviction removes the globally oldest records -/

/-- The 105 records of the spec's eviction scenario: distinct ids,
timestamps 1,2,...,105, inserted in that order. -/
def evictionScenarioItems : List HistoryItem :=
  (List.range 105).map (fun k => ⟨toString (k + 1), "u", "p", defConfig, k + 1⟩)

/-- A sequence of `saveHistoryItem` calls (all IndexedDB requests
succeeding), threading the store through. -/
def putAll (items : List HistoryItem) (s : ImageStore) : ImageStore :=
  items.foldl (fun acc it => (saveHistoryItem okStorageEnv it acc).1) s

set_option maxRecDepth 40000 in
/-- C3: inserting records with timestamps 1..105 into an empty store
leaves exactly the records with timestamps 6..105 (the five globally
oldest were evicted); moreover, for every store contents, the eviction
victims (the sorted list past position MAX_HISTORY_ITEMS) all have
timestamps no newer than every kept record (the first
MAX_HISTORY_ITEMS of the sorted list). -/
theorem oldest_records_evicted :
    (putAll evictionScenarioItems []).map (fun e => e.timestamp) = List.range' 6 100 ∧
    (∀ l : ImageStore,
      ((sortByTimestamp l).drop MAX_HISTORY_ITEMS).all (fun y =>
        ((sortByTimestamp l).take MAX_HISTORY_ITEMS).all (fun x =>
          decide (y.timestamp ≤ x.timestamp))) = true) := by
  constructor
  · decide
  · intro l
    rw [List.all_eq_true]
    intro y hy
    rw [List.all_eq_true]
    intro x hx
    rw [decide_eq_true_eq]
    have hsorted : List.Sorted (fun a b : HistoryItem => b.timestamp ≤ a.timestamp)
        (sortByTimestamp l) := by
      haveI : IsTotal HistoryItem (fun a b => b.timestamp ≤ a.timestamp) :=
        ⟨fun a b => le_total b.timestamp a.timestamp⟩
      haveI : IsTrans HistoryItem (fun a b => b.timestamp ≤ a.timestamp) :=
        ⟨fun a b c hab hbc => le_trans hbc hab⟩
      exact List.sorted_insertionSort _ l
    have hsplit : List.Pairwise (fun a b : HistoryItem => b.timestamp ≤ a.timestamp)
        ((sortByTimestamp l).take MAX_HISTORY_ITEMS
          ++ (sortByTimestamp l).drop MAX_HISTORY_ITEMS) := by
      rw [List.take_append_drop]
      exact hsorted
    exact (List.pairwise_append.1 hsplit).2.2 x hx y hy

/-! ### C7 — eviction delete failures abort the put -/

/-- A full store: 100 records with ids "0".."99" and timestamps 0..99. -/
def overflowStore : ImageStore :=
  (List.range 100).map (fun k => ⟨toString k, "u", "p", defConfig, k⟩)

/-- The 101st record pushed into `overflowStore`. -/
def overflowItem : HistoryItem :=
  ⟨"100", "u", "p", defConfig, 100⟩

/-- A storage environment in which deleting the record with id "0" (the
oldest, hence the eviction victim) rejects. -/
def victimDeleteFailsEnv : StorageEnv :=
  ⟨fun _ => none, none, fun id => if id == "0" then some "delete rejected" else none⟩

set_option maxRecDepth 40000 in
/-- C7 counterexample: when the delete of an eviction victim rejects,
`saveHistoryItem` does NOT return normally — the rejection propagates
out of the eviction loop, so the whole put rejects with the victim's
delete error. -/
theorem eviction_delete_failure_aborts_put :
    (saveHistoryItem victimDeleteFailsEnv overflowItem overflowStore).2
      = some "delete rejected" := by
  decide

/-- C7 amended: a failing delete of an eviction victim is not tolerated:
the error propagates immediately (no log-and-continue), the whole
`saveHistoryItem` rejects with that error, and the store is left with
the new item inserted but no victim deleted. -/
theorem eviction_failure_propagates (env : StorageEnv) (it : HistoryItem) (s : ImageStore)
    (v : HistoryItem) (rest : List HistoryItem) (m : String)
    (hput : env.putFails it = none)
    (hget : env.getAllFails = none)
    (hlen : MAX_HISTORY_ITEMS < (putItem it s).length)
    (hvict : (sortByTimestamp (putItem it s)).drop MAX_HISTORY_ITEMS = v :: rest)
    (hdel : env.delFails v.id = some m) :
    saveHistoryItem env it s = (putItem it s, some m) := by
  unfold saveHistoryItem enforceHistoryLimit
  rw [hput, hget]
  rw [if_neg (by omega)]
  rw [hvict]
  simp [runDeletes, hdel]

set_option maxRecDepth 40000 in
/-- C7 witness: the concrete overflow scenario, applied through the
amended theorem. -/
theorem eviction_failure_propagates_witness :
    saveHistoryItem victimDeleteFailsEnv overflowItem overflowStore
      = (putItem overflowItem overflowStore, some "delete rejected") :=
  eviction_failure_propagates victimDeleteFailsEnv overflowItem overflowStore
    ⟨"0", "u", "p", defConfig, 0⟩ [] "delete rejected"
    rfl rfl (by decide) (by decide) (by decide)

/-! ### C9 — put is an upsert keyed by id -/

/-- Overwriting the entry with a matching id makes it findable as the
new item. -/
lemma find_putItem_overwrites (it : HistoryItem) :
    ∀ s : ImageStore, s.any (fun e => e.id == it.id) = true →
      ((s.map (fun e => if e.id == it.id then it else e)).find?
        (fun e => e.id == it.id)) = some it := by
  intro s
  induction s with
  | nil =>
    intro h
    simp at h
  | cons a as ih =>
    intro h
    by_cases ha : (a.id == it.id) = true
    · simp only [List.map_cons, ha, if_true]
      rw [List.find?_cons_of_pos]
      simp
    · have h2 : as.any (fun e => e.id == it.id) = true := by
        simpa [List.any_cons, ha] using h
      simp only [List.map_cons, ha, if_false]
      rw [List.find?_cons_of_neg]
      · exact ih h2
      · simp [ha]

/-- C9: saving a record whose id already exists in a store within
capacity leaves the store size unchanged, returns normally, and the
record retrievable under that id afterwards is exactly the new record
(old fields overwritten, no duplicate created). -/
theorem put_existing_id_overwrites (env : StorageEnv) (it : HistoryItem) (s : ImageStore)
    (hput : env.putFails it = none)
    (hget : env.getAllFails = none)
    (hmem : s.any (fun e => e.id == it.id) = true)
    (hcap : s.length ≤ MAX_HISTORY_ITEMS) :
    (saveHistoryItem env it s).1.length = s.length ∧
    (saveHistoryItem env it s).2 = none ∧
    (saveHistoryItem env it s).1.find? (fun e => e.id == it.id) = some it := by
  have hpi : putItem it s = s.map (fun e => if e.id == it.id then it else e) := by
    unfold putItem
    rw [if_pos hmem]
  have hlen2 : (putItem it s).length ≤ MAX_HISTORY_ITEMS := by
    rw [hpi, List.length_map]
    exact hcap
  have hsave := saveHistoryItem_no_evict env it s hput hget hlen2
  rw [hsave]
  refine ⟨?_, rfl, ?_⟩
  · rw [hpi, List.length_map]
  · rw [hpi]
    exact find_putItem_overwrites it s hmem

/-- The pre-existing record of the C9 witness. -/
def priorItem : HistoryItem := ⟨"7", "u1", "p", defConfig, 1⟩

/-- The overwriting record of the C9 witness: same id, new fields. -/
def replacementItem : HistoryItem := ⟨"7", "u2", "q", defConfig, 2⟩

/-- C9 witness: a concrete overwrite of an existing id. -/
theorem put_existing_id_overwrites_witness :
    (saveHistoryItem okStorageEnv replacementItem [priorItem]).1.length
      = ([priorItem] : ImageStore).length ∧
    (saveHistoryItem okStorageEnv replacementItem [priorItem]).2 = none ∧
    (saveHistoryItem okStorageEnv replacementItem [priorItem]).1.find?
      (fun e => e.id == replacementItem.id) = some replacementItem :=
  put_existing_id_overwrites okStorageEnv replacementItem [priorItem]
    rfl rfl (by decide) (by decide)
